import Mathlib

/-!
Verification of the status-panel / auto-translate bot (`src/bot.py`)
against its natural-language specification.

The Python source is shallowly embedded: pure fragments become Lean
functions, and every call into an external collaborator (Discord API,
googletrans detector/translator) is abstracted as an oracle argument; a
call that may raise is an `Option`-valued oracle (`none` = the call
raised). Python `try/except` blocks become `Option` plumbing that mirrors
exactly which statements each handler protects.
-/

namespace StatusBot

/-! ## Supported languages (`SUPPORTED_LANGS` keys, bot.py lines 58-71) -/

def SUPPORTED_CODES : List String :=
  ["en", "es", "fr", "de", "it", "pt", "ru", "ja", "ko", "zh-cn", "zh-tw", "ar"]

/-! ## Channel auto-translate configuration (`set_channel_langs`, bot.py lines 248-284)

The command handler receives the tuple of raw codes. It replies with an
error (modelled as `none`: nothing stored) when no codes are given or when
a lowercased code is not supported; otherwise it stores the lowercased
list verbatim in `auto_channel_langs[channel.id]`.

Python's `str.lower()` is modelled character-wise (`pyLower`), which
agrees with it on the ASCII language codes involved here.
-/

def pyLower (s : String) : String := ⟨s.data.map Char.toLower⟩

def set_channel_langs (lang_codes : List String) : Option (List String) :=
  if lang_codes.isEmpty then
    none
  else
    let codes := lang_codes.map pyLower
    let invalid := codes.filter (fun c => !(SUPPORTED_CODES.contains c))
    if invalid.isEmpty then some codes else none

/-! ## Ambient auto-translate fan-out (`on_message`, bot.py lines 513-559)

For a fixed message text the collaborators are:
  * `detect : Option String` — the result of `translator.detect(text).lang`,
    `none` when the call raised;
  * `translate : String → String → String → Option String` — given
    (text, src, dest), the result of `translator.translate(...).text`,
    `none` when the call raised.

`fanOutLoop` is the `for lang in target_langs` loop. The whole loop body
sits inside one `try`, so a raising `translate` call aborts the loop:
`none` here means the exception escaped to the outer handler.
-/

def fanOutLoop (translate : String → String → String → Option String)
    (text src : String) : List String → Option (List (String × String))
  | [] => some []
  | lang :: rest =>
    if lang = src then
      fanOutLoop translate text src rest
    else
      match translate text src lang with
      | none => none
      | some t => (fanOutLoop translate text src rest).map (fun l => (lang, t) :: l)

/-- The observable outcome of the auto-translate section of `on_message`
for one qualifying message: `some (src, translations)` when a reply is
sent to the channel, `none` when no reply is sent (blank text aside, that
is: the detect call raised, a translate call raised, or every target was
skipped so `if translations:` was false). -/
def onMessageResult (detect : Option String)
    (translate : String → String → String → Option String)
    (text : String) (target_langs : List String) :
    Option (String × List (String × String)) :=
  match detect with
  | none => none
  | some src =>
    match fanOutLoop translate text src target_langs with
    | none => none
    | some translations =>
      if translations.isEmpty then none else some (src, translations)

/-- The language/text pairs that actually appear in the emitted reply
(empty when no reply is sent). -/
def emittedTranslations :
    Option (String × List (String × String)) → List (String × String)
  | none => []
  | some (_, l) => l

/-! ## Panel renderer (`build_status_embed`, bot.py lines 112-137)

`discord.Status` is an open enumeration; `status_to_emoji_text` treats
everything other than online/idle/dnd (including `None`) as Offline.
`guild.get_member(uid)` is abstracted as `getMember : Nat → Option Member`.
-/

inductive Status where
  | online
  | idle
  | dnd
  | offline
  | invisible
deriving Repr, DecidableEq

structure Member where
  mention : String
  status : Option Status
deriving Repr, DecidableEq

def status_to_emoji_text : Option Status → String × String
  | none => ("⚫", "Offline")
  | some .online => ("🟢", "Online")
  | some .idle => ("🌙", "Idle")
  | some .dnd => ("⛔", "Do Not Disturb")
  | some _ => ("⚫", "Offline")

/-- One iteration of the `for uid in tracked_ids` loop body: the line
appended for user id `uid`. -/
def memberLine (getMember : Nat → Option Member) (uid : Nat) : String :=
  match getMember uid with
  | none => "❓ <@" ++ toString uid ++ "> – Not found in this server"
  | some m =>
    let et := status_to_emoji_text m.status
    et.1 ++ " " ++ m.mention ++ " – **" ++ et.2 ++ "**"

/-- The `lines` list accumulated by the loop, in iteration order. -/
def buildLines (getMember : Nat → Option Member) : List Nat → List String
  | [] => []
  | uid :: rest => memberLine getMember uid :: buildLines getMember rest

def placeholderLine : String :=
  "No tracked users yet. Use `/adduser` to add support members."

/-- The embed `description` computed by `build_status_embed`. -/
def build_status_description (getMember : Nat → Option Member)
    (tracked_ids : List Nat) : String :=
  if tracked_ids.isEmpty then
    placeholderLine
  else
    let lines := buildLines getMember tracked_ids
    if lines.isEmpty then "No valid tracked members found."
    else String.intercalate "\n" lines

/-! ## Personal translation command (`translate_text`, bot.py lines 205-233)

`ctx.send` calls are the observable outcome; exactly one is made per
invocation, modelled by `TranslateReply`. The translator collaborator is
`oracle : String → String → Except String (String × String)`: given
(text, dest) it returns either `(result.src, result.text)` or the raised
exception's message.
-/

inductive TranslateReply where
  | noText
  | noLang
  | success (source_lang target_lang original translated : String)
  | failure (err : String)
deriving Repr, DecidableEq

def translate_text (user_lang : Option String) (text : Option String)
    (oracle : String → String → Except String (String × String)) :
    TranslateReply :=
  match text with
  | none => .noText
  | some t =>
    match user_lang with
    | none => .noLang
    | some target =>
      match oracle t target with
      | .ok (src, translated) => .success src target t translated
      | .error e => .failure e

/-! ## Panel synchronizer (`update_panels`, bot.py lines 464-502)

One tick processes each guild independently; `tickGuild` is the loop body
for a single guild. The collaborators resolved/called for that guild in
that tick are bundled in `TickEnv`:
  * `guildResolves` — `bot.get_guild(guild_id)` is not `None`;
  * `channelResolves` — `guild.get_channel(channel_id)` is not `None`;
  * `fetchOk` — `channel.fetch_message(message_id)` does not raise;
  * `sendResult` — `some id` when `channel.send(...)` returns a message
    with that id, `none` when it raises;
  * `editOk` — `message.edit(...)` does not raise.

Python truthiness: `if not channel_id or not message_id` skips when a
field is absent or zero, so the stored fields are `Option Nat` and the
test is `isFalsy`.
-/

structure Panel where
  channel_id : Option Nat
  message_id : Option Nat
deriving Repr, DecidableEq

structure GuildCfg where
  tracked_user_ids : List Nat
  panel : Option Panel
deriving Repr, DecidableEq

def isFalsy : Option Nat → Bool
  | none => true
  | some n => n == 0

structure TickEnv where
  guildResolves : Bool
  channelResolves : Bool
  fetchOk : Bool
  sendResult : Option Nat
  editOk : Bool

/-- Observable effects of one guild's slice of a tick. -/
structure TickResult where
  cfg : GuildCfg
  fetchAttempts : Nat
  sendAttempts : Nat
  editAttempts : Nat
  persisted : Bool
deriving Repr, DecidableEq

def tickGuild (env : TickEnv) (cfg : GuildCfg) : TickResult :=
  match cfg.panel with
  | none => ⟨cfg, 0, 0, 0, false⟩
  | some p =>
    if !env.guildResolves then ⟨cfg, 0, 0, 0, false⟩
    else if isFalsy p.channel_id || isFalsy p.message_id then ⟨cfg, 0, 0, 0, false⟩
    else if !env.channelResolves then ⟨cfg, 0, 0, 0, false⟩
    else if env.fetchOk then
      ⟨cfg, 1, 0, 1, false⟩
    else
      match env.sendResult with
      | some newId =>
        ⟨{ cfg with panel := some { p with message_id := some newId } }, 1, 1, 0, true⟩
      | none => ⟨cfg, 1, 1, 0, false⟩

/-! ## Helper lemmas about the fan-out loop -/

/-- When the loop completes without an exception, the language column of
its result is exactly the input target list with the source language
filtered out, in input order. -/
theorem fanOutLoop_langs (translate : String → String → String → Option String)
    (text src : String) (targets : List String) (l : List (String × String))
    (h : fanOutLoop translate text src targets = some l) :
    l.map Prod.fst = targets.filter (fun t => t != src) := by
  induction targets generalizing l with
  | nil =>
    simp only [fanOutLoop, Option.some.injEq] at h
    subst h
    simp
  | cons lang rest ih =>
    simp only [fanOutLoop] at h
    by_cases hls : lang = src
    · rw [if_pos hls] at h
      simp only [List.filter, hls, bne_self_eq_false]
      exact ih l h
    · rw [if_neg hls] at h
      cases htr : translate text src lang with
      | none => rw [htr] at h; cases h
      | some t =>
        rw [htr] at h
        cases hrec : fanOutLoop translate text src rest with
        | none => rw [hrec] at h; cases h
        | some l0 =>
          rw [hrec] at h
          simp only [Option.map_some', Option.some.injEq] at h
          subst h
          have hb : (lang != src) = true := bne_iff_ne.mpr hls
          simp only [List.map_cons, List.filter, hb]
          rw [ih l0 hrec]

/-- A raising translate call on any non-skipped target makes the loop
itself raise. -/
theorem fanOutLoop_fail (translate : String → String → String → Option String)
    (text src lang : String) (targets : List String)
    (hmem : lang ∈ targets) (hne : lang ≠ src)
    (hfail : translate text src lang = none) :
    fanOutLoop translate text src targets = none := by
  induction targets with
  | nil => cases hmem
  | cons head rest ih =>
    rcases List.mem_cons.mp hmem with h | h
    · subst h
      simp only [fanOutLoop, if_neg hne, hfail]
    · by_cases hhs : head = src
      · simp only [fanOutLoop, if_pos hhs]
        exact ih h
      · simp only [fanOutLoop, if_neg hhs]
        cases htr : translate text src head with
        | none => rfl
        | some t => rw [ih h]; rfl

/-! ## Claim C1 (ambient fan-out: per-target failure isolation) -/

/-- Concrete translator oracle for C1: the call raises whenever the
destination is "en" and succeeds otherwise. -/
def cexTranslate : String → String → String → Option String :=
  fun _ _ dest => if dest = "en" then none else some "marhaba"

/-- C1, counterexample. With targets `["en", "ar"]`, detected source
`"it"`, and a translator that fails only on `"en"`, the claim says the
reply still contains the `"ar"` translation. In the code the exception
escapes the whole loop, so nothing is emitted at all: the translate call
for `"ar"` would succeed, yet no `"ar"` entry (indeed no entry) appears. -/
theorem C1_counterexample :
    "ar" ∈ (["en", "ar"] : List String) ∧ "ar" ≠ "it" ∧
    cexTranslate "ciao" "it" "ar" = some "marhaba" ∧
    onMessageResult (some "it") cexTranslate "ciao" ["en", "ar"] = none ∧
    "ar" ∉ (emittedTranslations
      (onMessageResult (some "it") cexTranslate "ciao" ["en", "ar"])).map Prod.fst := by
  refine ⟨by decide, by decide, by decide, by decide, by decide⟩

/-- C1 (amended): in the ambient fan-out path, per-target translation
failures are NOT isolated: if the translate call for any non-skipped
target fails, the exception aborts the whole fan-out — the remaining
targets are not translated and no reply is emitted at all, so even the
targets that would have succeeded are dropped. -/
theorem C1_amended_failure_aborts_fanout
    (translate : String → String → String → Option String)
    (text src lang : String) (targets : List String)
    (hmem : lang ∈ targets) (hne : lang ≠ src)
    (hfail : translate text src lang = none) :
    onMessageResult (some src) translate text targets = none := by
  simp only [onMessageResult, fanOutLoop_fail translate text src lang targets hmem hne hfail]

theorem C1_amended_witness :
    "en" ∈ (["en", "ar"] : List String) ∧ "en" ≠ "it" ∧
    cexTranslate "ciao" "it" "en" = none ∧
    onMessageResult (some "it") cexTranslate "ciao" ["en", "ar"] = none :=
  ⟨by decide, by decide, by decide,
    C1_amended_failure_aborts_fanout cexTranslate "ciao" "it" "en" ["en", "ar"]
      (by decide) (by decide) (by decide)⟩

/-! ## Claim C5 (source language never in the output column) -/

/-- C5: for every detected source language, every translator oracle,
every text and every target list, the detected source language never
appears in the language column of the emitted translation list: a target
equal to the source is skipped before its translate call. -/
theorem C5_source_never_in_output
    (translate : String → String → String → Option String)
    (text src : String) (targets : List String) :
    ∀ p ∈ emittedTranslations (onMessageResult (some src) translate text targets),
      p.1 ≠ src := by
  intro p hp
  simp only [onMessageResult] at hp
  cases hfo : fanOutLoop translate text src targets with
  | none => rw [hfo] at hp; simp [emittedTranslations] at hp
  | some l =>
    rw [hfo] at hp
    by_cases hl : l.isEmpty
    · simp [hl, emittedTranslations] at hp
    · simp [hl, emittedTranslations] at hp
      have hmem : p.1 ∈ l.map Prod.fst := List.mem_map_of_mem Prod.fst hp
      rw [fanOutLoop_langs translate text src targets l hfo] at hmem
      exact bne_iff_ne.mp (List.mem_filter.mp hmem).2

theorem C5_witness :
    ("en", "x").1 ≠ "it" :=
  C5_source_never_in_output (fun _ _ _ => some "x") "ciao" "it" ["en"] ("en", "x")
    (by decide)

/-! ## Claim C6 (empty translation list means no reply) -/

/-- C6: if the fan-out loop completes with an empty translation list
(every target was skipped as equal to the source), no reply message is
sent at all — and the same conclusion holds a fortiori when the loop
aborts. -/
theorem C6_empty_list_no_reply (detect : Option String)
    (translate : String → String → String → Option String)
    (text src : String) (targets : List String)
    (hdet : detect = some src)
    (h : fanOutLoop translate text src targets = some []) :
    onMessageResult detect translate text targets = none := by
  subst hdet
  simp [onMessageResult, h]

theorem C6_witness :
    fanOutLoop (fun _ _ _ => some "x") "bonjour" "fr" ["fr"] = some [] ∧
    onMessageResult (some "fr") (fun _ _ _ => some "x") "bonjour" ["fr"] = none :=
  ⟨by decide,
    C6_empty_list_no_reply (some "fr") (fun _ _ _ => some "x") "bonjour" "fr" ["fr"]
      rfl (by decide)⟩

/-! ## Claim C2 (channel config stores a deduplicated ordered set) -/

/-- C2, counterexample. `!setchannellangs en en` passes validation and
stores `["en", "en"]` verbatim: the stored list is NOT deduplicated, so
the code `"en"` occurs twice. -/
theorem C2_counterexample :
    set_channel_langs ["en", "en"] = some ["en", "en"] ∧
    ¬ (["en", "en"] : List String).Nodup := by
  refine ⟨by decide, by decide⟩

/-- C2 (amended): for every non-empty sequence of raw codes whose
lowercasings are all supported, the stored per-channel value is exactly
the lowercased input sequence verbatim — order preserved, duplicates
retained (no deduplication is performed). -/
theorem C2_amended_stores_lowered_verbatim (lang_codes : List String)
    (hne : lang_codes ≠ [])
    (hvalid : ∀ c ∈ lang_codes.map pyLower, c ∈ SUPPORTED_CODES) :
    set_channel_langs lang_codes = some (lang_codes.map pyLower) := by
  have hfilter :
      (lang_codes.map pyLower).filter (fun c => !(SUPPORTED_CODES.contains c)) = [] := by
    rw [List.filter_eq_nil_iff]
    intro c hc
    simpa using hvalid c hc
  simp [set_channel_langs, hne, hfilter]
  intro x hx
  exact hvalid (pyLower x) (List.mem_map_of_mem pyLower hx)

theorem C2_amended_witness :
    (["EN", "en"] : List String) ≠ [] ∧
    (∀ c ∈ (["EN", "en"] : List String).map pyLower, c ∈ SUPPORTED_CODES) ∧
    set_channel_langs ["EN", "en"] = some ((["EN", "en"] : List String).map pyLower) :=
  ⟨by decide, by decide,
    C2_amended_stores_lowered_verbatim ["EN", "en"] (by decide) (by decide)⟩

/-! ## Claim C3 (recreation on fetch failure updates only message_id) -/

/-- C3: when a registered panel with usable stored ids is processed, the
guild and channel resolve, the fetch raises, and the recreation send
succeeds returning `newId`, then exactly one send is attempted, the
stored message_id becomes `newId`, the stored channel_id is unchanged,
and the state is persisted. -/
theorem C3_recreation_updates_message_id (env : TickEnv) (cfg : GuildCfg)
    (p : Panel) (newId : Nat)
    (hp : cfg.panel = some p)
    (hg : env.guildResolves = true)
    (hc : isFalsy p.channel_id = false)
    (hm : isFalsy p.message_id = false)
    (hch : env.channelResolves = true)
    (hfetch : env.fetchOk = false)
    (hsend : env.sendResult = some newId) :
    (tickGuild env cfg).sendAttempts = 1 ∧
    (tickGuild env cfg).cfg.panel = some ⟨p.channel_id, some newId⟩ ∧
    (tickGuild env cfg).persisted = true := by
  simp [tickGuild, hp, hg, hc, hm, hch, hfetch, hsend]

theorem C3_witness :
    (tickGuild ⟨true, true, false, some 42, false⟩
        ⟨[1, 2], some ⟨some 5, some 7⟩⟩).sendAttempts = 1 ∧
    (tickGuild ⟨true, true, false, some 42, false⟩
        ⟨[1, 2], some ⟨some 5, some 7⟩⟩).cfg.panel = some ⟨some 5, some 42⟩ ∧
    (tickGuild ⟨true, true, false, some 42, false⟩
        ⟨[1, 2], some ⟨some 5, some 7⟩⟩).persisted = true :=
  C3_recreation_updates_message_id ⟨true, true, false, some 42, false⟩
    ⟨[1, 2], some ⟨some 5, some 7⟩⟩ ⟨some 5, some 7⟩ 42
    rfl rfl rfl rfl rfl rfl rfl

/-! ## Claim C4 (failed recreation leaves the stored panel untouched) -/

/-- C4: when the fetch raises and the single recreation send also raises,
the whole stored guild configuration (in particular both panel fields)
after the tick is identical to its value before the tick. -/
theorem C4_failed_recreation_preserves_cfg (env : TickEnv) (cfg : GuildCfg)
    (p : Panel)
    (hp : cfg.panel = some p)
    (hg : env.guildResolves = true)
    (hc : isFalsy p.channel_id = false)
    (hm : isFalsy p.message_id = false)
    (hch : env.channelResolves = true)
    (hfetch : env.fetchOk = false)
    (hsend : env.sendResult = none) :
    (tickGuild env cfg).cfg = cfg ∧ (tickGuild env cfg).persisted = false := by
  simp [tickGuild, hp, hg, hc, hm, hch, hfetch, hsend]

theorem C4_witness :
    (tickGuild ⟨true, true, false, none, false⟩
        ⟨[1], some ⟨some 5, some 7⟩⟩).cfg = ⟨[1], some ⟨some 5, some 7⟩⟩ ∧
    (tickGuild ⟨true, true, false, none, false⟩
        ⟨[1], some ⟨some 5, some 7⟩⟩).persisted = false :=
  C4_failed_recreation_preserves_cfg ⟨true, true, false, none, false⟩
    ⟨[1], some ⟨some 5, some 7⟩⟩ ⟨some 5, some 7⟩
    rfl rfl rfl rfl rfl rfl rfl

/-! ## Claim C10 (unresolvable guild/channel or unusable ids: silent skip) -/

/-- C10: a guild with a stored panel whose guild object does not resolve,
whose stored channel_id or message_id is missing or zero, or whose
channel does not resolve, is skipped silently: no fetch, send or edit is
attempted, nothing is persisted, and the configuration is unchanged. -/
theorem C10_unresolved_guild_is_skipped (env : TickEnv) (cfg : GuildCfg)
    (p : Panel)
    (hp : cfg.panel = some p)
    (hskip : env.guildResolves = false ∨ isFalsy p.channel_id = true ∨
             isFalsy p.message_id = true ∨ env.channelResolves = false) :
    tickGuild env cfg = ⟨cfg, 0, 0, 0, false⟩ := by
  rcases hskip with h | h | h | h
  · simp [tickGuild, hp, h]
  · by_cases hg : env.guildResolves <;> simp [tickGuild, hp, hg, h]
  · by_cases hg : env.guildResolves <;> simp [tickGuild, hp, hg, h]
  · by_cases hg : env.guildResolves <;>
      by_cases hc : isFalsy p.channel_id <;>
      by_cases hm : isFalsy p.message_id <;>
      simp [tickGuild, hp, hg, hc, hm, h]

theorem C10_witness :
    tickGuild ⟨false, true, true, some 9, true⟩ ⟨[1], some ⟨some 5, some 7⟩⟩ =
      ⟨⟨[1], some ⟨some 5, some 7⟩⟩, 0, 0, 0, false⟩ :=
  C10_unresolved_guild_is_skipped ⟨false, true, true, some 9, true⟩
    ⟨[1], some ⟨some 5, some 7⟩⟩ ⟨some 5, some 7⟩ rfl (Or.inl rfl)

/-! ## Claims C7 and C8 (panel renderer) -/

theorem buildLines_eq_map (getMember : Nat → Option Member) (ids : List Nat) :
    buildLines getMember ids = ids.map (memberLine getMember) := by
  induction ids with
  | nil => rfl
  | cons uid rest ih => simp [buildLines, ih]

/-- C7: for every non-empty tracked list the rendered body has exactly
one line per tracked id, in input order — the i-th line is `memberLine`
of the i-th id (status line when the member resolves, unknown-member line
tagged with the raw id when it does not), and the description is the
newline join of those lines; rendering is total, so an unresolvable
member never aborts the rest. -/
theorem C7_one_line_per_tracked_id (getMember : Nat → Option Member)
    (tracked_ids : List Nat) (hne : tracked_ids ≠ []) :
    (buildLines getMember tracked_ids).length = tracked_ids.length ∧
    buildLines getMember tracked_ids = tracked_ids.map (memberLine getMember) ∧
    build_status_description getMember tracked_ids =
      String.intercalate "\n" (buildLines getMember tracked_ids) := by
  have hmap := buildLines_eq_map getMember tracked_ids
  refine ⟨by rw [hmap]; exact List.length_map tracked_ids (memberLine getMember), hmap, ?_⟩
  have hempty : tracked_ids.isEmpty = false := by
    cases tracked_ids with
    | nil => exact absurd rfl hne
    | cons a l => rfl
  have hlines : (buildLines getMember tracked_ids).isEmpty = false := by
    cases tracked_ids with
    | nil => exact absurd rfl hne
    | cons a l => rfl
  simp [build_status_description, hempty, hlines]

theorem C7_witness :
    (buildLines (fun uid => if uid = 1 then some ⟨"<@1>", some .online⟩ else none)
        [1, 2]).length = 2 ∧
    buildLines (fun uid => if uid = 1 then some ⟨"<@1>", some .online⟩ else none) [1, 2] =
      [1, 2].map (memberLine (fun uid => if uid = 1 then some ⟨"<@1>", some .online⟩ else none)) ∧
    build_status_description
        (fun uid => if uid = 1 then some ⟨"<@1>", some .online⟩ else none) [1, 2] =
      String.intercalate "\n"
        (buildLines (fun uid => if uid = 1 then some ⟨"<@1>", some .online⟩ else none)
          [1, 2]) :=
  C7_one_line_per_tracked_id
    (fun uid => if uid = 1 then some ⟨"<@1>", some .online⟩ else none) [1, 2]
    (by decide)

/-- C8: with an empty tracked list the rendered body is exactly the
single instructional placeholder line, and the per-user line list is
empty. -/
theorem C8_empty_tracked_placeholder (getMember : Nat → Option Member) :
    build_status_description getMember [] = placeholderLine ∧
    buildLines getMember [] = [] :=
  ⟨rfl, rfl⟩

/-! ## Claim C9 (personal translation command) -/

/-- C9: with a stored language preference and provided text, the
translate call is made unconditionally and its outcome fully determines
the reply: a successful call — including one whose detected source
equals the target, which is still returned as an identity translation —
yields the success reply, and a raising call yields a failure message
sent to the requesting user rather than silence. -/
theorem C9_single_shot_always_answers
    (oracle : String → String → Except String (String × String))
    (text target src translated err : String) :
    (oracle text target = .ok (src, translated) →
      translate_text (some target) (some text) oracle =
        .success src target text translated) ∧
    (oracle text target = .error err →
      translate_text (some target) (some text) oracle = .failure err) := by
  constructor
  · intro h
    simp [translate_text, h]
  · intro h
    simp [translate_text, h]

/-- Concrete translator oracle for the C9 witness: raises on the text
"boom", otherwise detects the destination language itself as source and
returns the text unchanged (an identity translation). -/
def singleShotOracle : String → String → Except String (String × String) :=
  fun t dest => if t = "boom" then .error "network" else .ok (dest, t)

theorem C9_witness :
    (singleShotOracle "hola" "es" = .ok ("es", "hola") ∧
      translate_text (some "es") (some "hola") singleShotOracle =
        .success "es" "es" "hola" "hola") ∧
    (singleShotOracle "boom" "es" = .error "network" ∧
      translate_text (some "es") (some "boom") singleShotOracle =
        .failure "network") :=
  ⟨⟨rfl,
    (C9_single_shot_always_answers singleShotOracle "hola" "es" "es" "hola" "e").1
      rfl⟩,
   ⟨rfl,
    (C9_single_shot_always_answers singleShotOracle "boom" "es" "s" "t" "network").2
      rfl⟩⟩

end StatusBot
